import Mathlib

/-! Shallow embedding of the result-reconciliation scripts of the
cpu-gpu-lp-benchmark repository: `parse_cuopt_results.py`,
`gurobi_benchmark.py`, `compare_results.py` and `summary.py`.
Solver runs and file I/O are modelled by explicit parameters; absence of a
value (Python `None`) is modelled by `Option`. -/

/-- Value stored in the `status` field of a result record: either a numeric
solver status code, or the literal marker string `ERROR`
(both producers assign exactly these two shapes). -/
inductive StatusField
  | int (n : Nat)
  | errMark
  deriving DecidableEq

/-- Value stored in the `objective` field: a numeric objective or a raw
textual token (the cuOpt parser stores the regex token, the Gurobi runner
stores a float or the string `N/A`). -/
inductive ObjField
  | numq (q : ℚ)
  | tok (s : String)
  deriving DecidableEq

/-- One result record: the dict built by both producers
(`parse_cuopt_results.py` lines 19-25, `gurobi_benchmark.py` lines 21-27)
and also one row of the per-solver CSV datasets, with fields
`model_name, solve_time, status, objective, error`. -/
structure Row where
  model_name : String
  solve_time : Option ℚ
  status : Option StatusField
  objective : Option ObjField
  error : Option String
  deriving DecidableEq

/-! ### The two regular expressions of `parse_cuopt_results.py`

`concurrent_pattern = r'Concurrent time:\s*([\d,\.]+s),\s*total time\s*([\d,\.]+s)'`
`status_pattern = r'Status:\s*(\w+)\s+Objective:\s*(\S+)\s+Iterations:\s*\d+'`

Both patterns consist of literals and greedy one-or-more classes each
followed by a character outside the class, so Python's backtracking search
is equivalent to maximal munch; `re.search` is modelled as trying the
pattern at every start position, leftmost first. -/

/-- Python regex class `\s` (ASCII whitespace). -/
def isPyWS (c : Char) : Bool :=
  c = ' ' || c = '\t' || c = '\n' || c = '\r' || c = '\x0b' || c = '\x0c'

/-- Python regex class `\w` (ASCII word characters). -/
def isWordChar (c : Char) : Bool :=
  c.isAlphanum || c = '_'

/-- Character class `[\d,\.]` of the timing pattern: digits, comma, dot. -/
def isTimeChar (c : Char) : Bool :=
  c.isDigit || c = ',' || c = '.'

/-- Match a literal character sequence at the head of the input,
returning the rest. -/
def dropPrefix? : List Char → List Char → Option (List Char)
  | [], s => some s
  | _ :: _, [] => none
  | p :: ps, c :: cs => if c = p then dropPrefix? ps cs else none

/-- Greedy one-or-more character-class match (regex `C+`). -/
def takeWhile1 (p : Char → Bool) (s : List Char) : Option (List Char × List Char) :=
  if (s.takeWhile p).isEmpty then none else some (s.takeWhile p, s.dropWhile p)

/-- Match of the timing pattern starting at the head of the input; returns
the characters of capture group 2 without its trailing `s` (the trailing
unit is mandatory in the pattern, and the source immediately strips it with
`endswith('s')` / `[:-1]`). -/
def matchConcurrentAt (s : List Char) : Option (List Char) := do
  let s ← dropPrefix? "Concurrent time:".toList s
  let s := s.dropWhile isPyWS
  let (_, s) ← takeWhile1 isTimeChar s
  let s ← dropPrefix? ['s'] s
  let s ← dropPrefix? [','] s
  let s := s.dropWhile isPyWS
  let s ← dropPrefix? "total time".toList s
  let s := s.dropWhile isPyWS
  let (g2, s) ← takeWhile1 isTimeChar s
  let _ ← dropPrefix? ['s'] s
  pure g2

/-- `re.search(concurrent_pattern, content)`: leftmost match. -/
def searchConcurrent : List Char → Option (List Char)
  | [] => none
  | c :: cs =>
    match matchConcurrentAt (c :: cs) with
    | some g => some g
    | none => searchConcurrent cs

/-- Match of the status pattern starting at the head of the input; returns
capture group 1 (the status token, `\w+`) and capture group 2 (the
objective token, `\S+`). -/
def matchStatusAt (s : List Char) : Option (List Char × List Char) := do
  let s ← dropPrefix? "Status:".toList s
  let s := s.dropWhile isPyWS
  let (tok, s) ← takeWhile1 isWordChar s
  let (_, s) ← takeWhile1 isPyWS s
  let s ← dropPrefix? "Objective:".toList s
  let s := s.dropWhile isPyWS
  let (obj, s) ← takeWhile1 (fun c => !(isPyWS c)) s
  let (_, s) ← takeWhile1 isPyWS s
  let s ← dropPrefix? "Iterations:".toList s
  let s := s.dropWhile isPyWS
  let _ ← takeWhile1 Char.isDigit s
  pure (tok, obj)

/-- `re.search(status_pattern, content)`: leftmost match. -/
def searchStatus : List Char → Option (List Char × List Char)
  | [] => none
  | c :: cs =>
    match matchStatusAt (c :: cs) with
    | some g => some g
    | none => searchStatus cs

/-! ### `float()` on the cleaned time string

After `[:-1]` and `replace(',', '')` the time string contains only digits
and dots. On that alphabet CPython's `float()` succeeds exactly when the
string has at least one digit and at most one dot (signs, exponents,
underscores and `inf`/`nan` spellings need characters the timing regex
cannot produce), and raises `ValueError` otherwise. -/

/-- Value of a digit string. -/
def digitsToNat (l : List Char) : ℕ :=
  l.foldl (fun a c => 10 * a + (c.toNat - 48)) 0

/-- Value of a digits-and-one-dot decimal string. -/
def ratOfDecimal (l : List Char) : ℚ :=
  let ip := l.takeWhile (fun c => decide (c ≠ '.'))
  let fp := (l.dropWhile (fun c => decide (c ≠ '.'))).drop 1
  (digitsToNat ip : ℚ) + (digitsToNat fp : ℚ) / (10 : ℚ) ^ fp.length

/-- `float(s)` for strings over the digits-and-dots alphabet: the result,
or the `ValueError` message. -/
def pyFloat (l : List Char) : Except String ℚ :=
  if (l.all fun c => c.isDigit || c = '.') && l.count '.' ≤ 1 && l.any Char.isDigit then
    .ok (ratOfDecimal l)
  else
    .error ("could not convert string to float: " ++ String.mk l)

/-! ### Status normalization and the parser (`parse_cuopt_results.py` lines 8-77) -/

/-- `status_map.get(status, 11)` where `status_map` maps
`Optimal` to 2, `Time` to 9, `Infeasible` to 3, `Unbounded` to 5 and
`Unknown` to 11. -/
def status_map_get (s : String) : ℕ :=
  if s = "Optimal" then 2
  else if s = "Time" then 9
  else if s = "Infeasible" then 3
  else if s = "Unbounded" then 5
  else if s = "Unknown" then 11
  else 11

/-- Lines 62-66: `if 'Limit' in status: status = 'Time Limit'` followed by
`status_map.get(status, 11)`. -/
def normalizeCuoptStatus (status : String) : ℕ :=
  let status := if "Limit".toList <:+: status.toList then "Time Limit" else status
  status_map_get status

/-- Line 71 of `parse_cuopt_results.py`. -/
def noMarkersMsg : String := "No concurrent and status lines found in log"

/-- The record shape produced by both error branches of the parser:
only `status` (the `ERROR` marker) and `error` are filled in. -/
def errorRecord (model_name msg : String) : Row :=
  { model_name := model_name
    solve_time := none
    status := some .errMark
    objective := none
    error := some msg }

/-- `parse_cuopt_log`: the file read (`open`/`read`) is passed in as
`readResult` (`.error e` models an I/O exception with text `e`, caught by
the function's `except` clause).  A `ValueError` raised by `float()` is
likewise caught by the same `except` clause and produces the same error
record shape, with the exception text; no other statement in the `try`
block can raise. -/
def parse_cuopt_log (model_name : String) (readResult : Except String String) : Row :=
  match readResult with
  | .error e => errorRecord model_name e
  | .ok content =>
    match searchConcurrent content.toList, searchStatus content.toList with
    | some g2, some (statusTok, objTok) =>
      match pyFloat (g2.filter fun c => decide (c ≠ ',')) with
      | .ok t =>
        { model_name := model_name
          solve_time := some t
          status := some (.int (normalizeCuoptStatus (String.mk statusTok)))
          objective := some (.tok (String.mk objTok))
          error := none }
      | .error m => errorRecord model_name m
    | _, _ => errorRecord model_name noMarkersMsg

/-! ### `gurobi_benchmark.py` lines 9-63 -/

/-- Outcome of the external Gurobi calls inside the `try` block of
`solve_mps_with_gurobi`.  `ok runtime status objVal` models a run in which
`model.optimize()` returned and `model.Runtime` / `model.Status` /
`model.ObjVal` were read (with `objVal = none` for a `None` objective);
`exn partialTime partialStatus msg` models an exception raised somewhere in
the block, carrying the assignments that had already happened (`objective`
can never have been assigned before a raise, since the objective reads are
the last fallible statements). -/
inductive GurobiOracle
  | ok (runtime : ℚ) (status : ℕ) (objVal : Option ℚ)
  | exn (partialTime : Option ℚ) (partialStatus : Option ℕ) (msg : String)

/-- `solve_mps_with_gurobi`: `GRB.OPTIMAL = 2`, `GRB.TIME_LIMIT = 9`.
The `except` clause overwrites `status` with the `ERROR` marker and stores
the exception text in `error`. -/
def solve_mps_with_gurobi (model_name : String) (run : GurobiOracle) : Row :=
  match run with
  | .ok runtime status objVal =>
    { model_name := model_name
      solve_time := some runtime
      status := some (.int status)
      objective :=
        if status = 2 then objVal.map ObjField.numq
        else if status = 9 then
          match objVal with
          | some v => some (.numq v)
          | none => some (.tok "N/A")
        else some (.tok "N/A")
      error := none }
  | .exn partialTime _partialStatus msg =>
    { model_name := model_name
      solve_time := partialTime
      status := some .errMark
      objective := none
      error := some msg }

/-! ### The reconciler (`compare_results.py` `analyze_comparison`, lines 63-166)

`common_models = set(cuopt_df['model_name']) & set(gurobi_df['model_name'])`
is a Python set; the loop `for model in common_models` visits each member
once, in an order the language does not determine from the inputs (string
hashing is randomized per process).  The membership of the set is modelled
by `common_models` below, and the iteration order by an explicit `enum`
parameter. -/

/-- The `model_name` column of a dataset. -/
def keysOf (df : List Row) : List String :=
  df.map fun r => r.model_name

/-- `df[df['model_name'] == model].iloc[0]`: the first row of the dataset
whose key matches (`none` when there is no such row, where the source would
raise `IndexError`). -/
def lookupFirst (df : List Row) (m : String) : Option Row :=
  (df.filter fun r => decide (r.model_name = m)).head?

/-- The membership of the set
`set(cuopt_df['model_name']) & set(gurobi_df['model_name'])`, listed
without duplicates. -/
def common_models (cuopt gurobi : List Row) : List String :=
  ((keysOf cuopt).dedup).filter fun m => decide (m ∈ keysOf gurobi)

/-- Line 164: `gurobi_row['solve_time'] / cuopt_row['solve_time'] if
(cuopt_row['solve_time'] is not None and gurobi_row['solve_time'] is not
None and cuopt_row['solve_time'] > 0) else None`. -/
def speedup_field (cuopt_time gurobi_time : Option ℚ) : Option ℚ :=
  match cuopt_time, gurobi_time with
  | some a, some b => if 0 < a then some (b / a) else none
  | _, _ => none

/-- Line 165, the right-associated conditional chain:
`'cuOpt'` if both times present and cuopt < gurobi, else `'Gurobi'` if both
present and gurobi < cuopt, else `'Tie'` if both present, else `'N/A'`. -/
def winner_field (cuopt_time gurobi_time : Option ℚ) : String :=
  match cuopt_time, gurobi_time with
  | some a, some b => if a < b then "cuOpt" else if b < a then "Gurobi" else "Tie"
  | _, _ => "N/A"

/-- One entry of `comparison_data` (the dict of lines 154-166). -/
structure ComparisonEntry where
  model_name : String
  cuopt_solve_time : Option ℚ
  cuopt_status : Option StatusField
  cuopt_objective : Option ObjField
  cuopt_error : Option String
  gurobi_solve_time : Option ℚ
  gurobi_status : Option StatusField
  gurobi_objective : Option ObjField
  gurobi_error : Option String
  speedup : Option ℚ
  winner : String
  deriving DecidableEq

/-- Lines 154-166: the dict appended for one `model` (note
`x if x is not None else None` is just `x`). -/
def mkComparisonEntry (m : String) (c g : Row) : ComparisonEntry :=
  { model_name := m
    cuopt_solve_time := c.solve_time
    cuopt_status := c.status
    cuopt_objective := c.objective
    cuopt_error := c.error
    gurobi_solve_time := g.solve_time
    gurobi_status := g.status
    gurobi_objective := g.objective
    gurobi_error := g.error
    speedup := speedup_field c.solve_time g.solve_time
    winner := winner_field c.solve_time g.solve_time }

/-- Lines 149-166: the `comparison_data` list built by iterating over the
common-key set in the order `enum`.  When `enum` enumerates
`common_models cuopt gurobi` both lookups succeed for every visited key;
a key with a missing side would make the source raise `IndexError`, and is
skipped here so the function stays total. -/
def comparison_data (cuopt gurobi : List Row) (enum : List String) : List ComparisonEntry :=
  enum.filterMap fun m =>
    match lookupFirst cuopt m, lookupFirst gurobi m with
    | some c, some g => some (mkComparisonEntry m c g)
    | _, _ => none

/-! ### Canonical winner vocabulary (spec section 3)

The reconciled table stores the winner as one of the strings
`'cuOpt' / 'Gurobi' / 'Tie' / 'N/A'`; the specification names the same four
outcomes `Left / Right / Tie / Unknown` with left = cuOpt, right = Gurobi. -/

/-- The canonical winner vocabulary of the specification. -/
inductive Winner
  | left
  | right
  | tie
  | unknown
  deriving DecidableEq

/-- Embedding of the source's winner strings into the canonical vocabulary
(left = cuOpt, right = Gurobi). -/
def canonWinner : String → Winner
  | "cuOpt" => .left
  | "Gurobi" => .right
  | "Tie" => .tie
  | _ => .unknown

/-- The winner decision rule exactly as the specification words it,
evaluated in order: (1) either time absent, Unknown; (2) left < right,
Left; (3) right < left, Right; (4) otherwise Tie. -/
def specWinner (l r : Option ℚ) : Winner :=
  match l, r with
  | none, _ => .unknown
  | _, none => .unknown
  | some a, some b => if a < b then .left else if b < a then .right else .tie

/-! ### The aggregator statistics (`summary.py` lines 21-22,
`compare_results.py` lines 39-47)

All of these divide a pandas/numpy integer count by `len(df)`.  numpy true
division never raises on a zero divisor: it emits a `RuntimeWarning` and
produces the IEEE special value (`nan` for `0/0`, `inf` for `n/0`, `n > 0`;
counts are never negative).  `NpVal` is the value space of such a
statistic. -/

/-- Result of a numpy true division: a number or an IEEE special value. -/
inductive NpVal
  | num (q : ℚ)
  | nan
  | inf
  deriving DecidableEq

/-- numpy true division of a nonnegative count by a length. -/
def np_div (a b : ℚ) : NpVal :=
  if b = 0 then (if a = 0 then .nan else .inf) else .num (a / b)

/-- Multiplication of a statistic by a positive constant (the `* 100`
turning a rate into a percentage); IEEE specials are preserved. -/
def np_scale (v : NpVal) (c : ℚ) : NpVal :=
  match v with
  | .num q => .num (q * c)
  | .nan => .nan
  | .inf => .inf

/-- `(df['status'] == 2).sum()` over the canonical records (the numeric
comparison that `summary.py` line 21-22 and, after `pd.to_numeric`,
`compare_results.py` line 40/51 perform). -/
def count_status_optimal (df : List Row) : ℕ :=
  (df.filter fun r => decide (r.status = some (.int 2))).length

/-- `(df['status'].str.contains('ERROR')).sum()` (`compare_results.py`
lines 41/53): counts the rows whose status is the `ERROR` marker. -/
def count_status_error (df : List Row) : ℕ :=
  (df.filter fun r => decide (r.status = some .errMark)).length

/-- `summary.py` lines 21-22:
`(df['status'] == 2).sum() / len(df) * 100`. -/
def success_rate (df : List Row) : NpVal :=
  np_scale (np_div (count_status_optimal df : ℚ) (df.length : ℚ)) 100

/-- `compare_results.py` lines 45-47: the three percentages
`count/len(df)*100` printed for Optimal / Errors / Other. -/
def status_pct (count : ℕ) (df : List Row) : NpVal :=
  np_scale (np_div (count : ℚ) (df.length : ℚ)) 100

/-- `cuopt_other = len(cuopt_df) - cuopt_optimal - cuopt_errors`
(line 42). -/
def count_status_other (df : List Row) : ℕ :=
  df.length - count_status_optimal df - count_status_error df

/-! ### Concrete fixtures used by witnesses and counterexamples -/

/-- A cuOpt-side row for problem `a`. -/
def rwA : Row := ⟨"a", some 1, some (.int 2), none, none⟩

/-- A cuOpt-side row for problem `b`. -/
def rwB : Row := ⟨"b", some 2, some (.int 2), none, none⟩

/-- A Gurobi-side row for problem `b`. -/
def rwBg : Row := ⟨"b", some 4, some (.int 2), none, none⟩

/-- A Gurobi-side row for problem `a`. -/
def rwAg : Row := ⟨"a", some 5, some (.int 2), none, none⟩

/-- First of two cuOpt rows sharing the key `a`. -/
def rwAdup1 : Row := ⟨"a", some 1, some (.int 2), none, none⟩

/-- Second of two cuOpt rows sharing the key `a`. -/
def rwAdup2 : Row := ⟨"a", some 2, some (.int 2), none, none⟩

/-- Two-problem cuOpt dataset. -/
def c9cu : List Row := [rwA, rwB]

/-- Two-problem Gurobi dataset over the same keys. -/
def c9gu : List Row :=
  [⟨"a", some 3, some (.int 2), none, none⟩, ⟨"b", some 4, some (.int 2), none, none⟩]

/-- A log whose status token is the single word `TimeLimit`. -/
def c3LogText : String :=
  "Concurrent time: 1s, total time 2s Status: TimeLimit Objective: 1 Iterations: 5"

/-- The well-formed log of the specification's example. -/
def c10GoodLog : String :=
  "Concurrent time: 0.479s, total time 0.522s Status: Optimal Objective: 2.87906569e+03 Iterations: 277"

/-- A log in which both marker lines match but the captured total time is
`.s`, so `float('.')` raises `ValueError`. -/
def c10BadLog : String :=
  "Concurrent time: 1s, total time .s Status: Optimal Objective: 1 Iterations: 5"

/-! ### Helper lemmas -/

/-- A nonempty decimal string made of digits and at most one dot has a
nonnegative value. -/
theorem ratOfDecimal_nonneg (l : List Char) : 0 ≤ ratOfDecimal l := by
  unfold ratOfDecimal
  positivity

/-- A successfully converted time string is nonnegative. -/
theorem pyFloat_ok_nonneg (l : List Char) (t : ℚ) (h : pyFloat l = .ok t) : 0 ≤ t := by
  unfold pyFloat at h
  split at h
  · injection h with h
    exact h ▸ ratOfDecimal_nonneg l
  · cases h

/-- The fallback dictionary lookup only produces the five mapped codes. -/
theorem status_map_get_mem (s : String) :
    status_map_get s = 2 ∨ status_map_get s = 3 ∨ status_map_get s = 5
    ∨ status_map_get s = 9 ∨ status_map_get s = 11 := by
  unfold status_map_get
  split_ifs <;> simp

/-- The normalizer only produces the five mapped codes. -/
theorem normalizeCuoptStatus_mem (s : String) :
    normalizeCuoptStatus s = 2 ∨ normalizeCuoptStatus s = 3 ∨ normalizeCuoptStatus s = 5
    ∨ normalizeCuoptStatus s = 9 ∨ normalizeCuoptStatus s = 11 :=
  status_map_get_mem _

/-- A key that occurs in a dataset has a first matching row. -/
theorem lookupFirst_isSome_of_mem (df : List Row) (m : String) (h : m ∈ keysOf df) :
    (lookupFirst df m).isSome = true := by
  induction df with
  | nil => simp [keysOf] at h
  | cons r rs ih =>
    rw [keysOf, List.map_cons, List.mem_cons] at h
    by_cases hr : r.model_name = m
    · simp [lookupFirst, List.filter_cons, hr]
    · have hm : m ∈ keysOf rs := by
        rcases h with h | h
        · exact absurd h.symm hr
        · exact h
      simpa [lookupFirst, List.filter_cons, hr] using ih hm

/-- Membership of the common-key set. -/
theorem mem_common_models (cuopt gurobi : List Row) (m : String) :
    m ∈ common_models cuopt gurobi ↔ (m ∈ keysOf cuopt ∧ m ∈ keysOf gurobi) := by
  unfold common_models
  simp [List.mem_filter, List.mem_dedup]

/-- The common-key set has no duplicates. -/
theorem common_models_nodup (cuopt gurobi : List Row) :
    (common_models cuopt gurobi).Nodup :=
  (List.nodup_dedup _).filter _

/-- When every visited key has a row on both sides, the output keys are
exactly the visited keys. -/
theorem comparison_data_map_keys (cuopt gurobi : List Row) (enum : List String)
    (h : ∀ m ∈ enum,
      (lookupFirst cuopt m).isSome = true ∧ (lookupFirst gurobi m).isSome = true) :
    (comparison_data cuopt gurobi enum).map ComparisonEntry.model_name = enum := by
  induction enum with
  | nil => rfl
  | cons m ms ih =>
    have hm := h m (List.mem_cons_self m ms)
    obtain ⟨c, hc⟩ := Option.isSome_iff_exists.mp hm.1
    obtain ⟨g, hg⟩ := Option.isSome_iff_exists.mp hm.2
    have hrest := ih fun x hx => h x (List.mem_cons_of_mem _ hx)
    simp only [comparison_data, List.filterMap_cons, hc, hg] at hrest ⊢
    simpa [mkComparisonEntry] using hrest

/-! ### Claim theorems -/

/-- C2: for every reconciled record the winner is decided exactly by the
specification's ordered rules on the pair (left = cuOpt, right = Gurobi):
either solve time absent gives Unknown; else left < right gives Left; else
right < left gives Right; else (equal) Tie.  The string produced by line
165 of `compare_results.py` is read through the canonical vocabulary
(`cuOpt` = Left, `Gurobi` = Right, `N/A` = Unknown). -/
theorem winner_matches_spec_rules (l r : Option ℚ) :
    canonWinner (winner_field l r) = specWinner l r := by
  cases l with
  | none => cases r <;> rfl
  | some a =>
    cases r with
    | none => rfl
    | some b =>
      simp only [winner_field, specWinner]
      by_cases h1 : a < b
      · simp [h1, canonWinner]
      · by_cases h2 : b < a <;> simp [h1, h2, canonWinner]

/-- Witness for C2 at equal present times: the winner is Tie. -/
theorem winner_matches_spec_rules_witness :
    canonWinner (winner_field (some 3) (some 3)) = specWinner (some 3) (some 3) :=
  winner_matches_spec_rules (some 3) (some 3)

/-- C4: the speedup of a reconciled record is present iff both solve times
are present and the cuOpt (left) time is positive; when present it is
gurobi_time / cuopt_time with a positive denominator, so the division of
line 164 is never reached with a zero or missing denominator. -/
theorem speedup_iff_guard (l r : Option ℚ) :
    ((speedup_field l r).isSome = true ↔ ∃ a b, l = some a ∧ r = some b ∧ 0 < a)
    ∧ ∀ a b, l = some a → r = some b → 0 < a → speedup_field l r = some (b / a) := by
  constructor
  · cases l with
    | none => simp [speedup_field]
    | some a =>
      cases r with
      | none => simp [speedup_field]
      | some b => by_cases h : 0 < a <;> simp [speedup_field, h]
  · intro a b hl hr ha
    subst hl; subst hr
    simp [speedup_field, ha]

/-- Witness for C4: times 2 and 4 give speedup 4 / 2. -/
theorem speedup_iff_guard_witness :
    speedup_field (some 2) (some 4) = some ((4 : ℚ) / 2) :=
  (speedup_iff_guard (some 2) (some 4)).2 2 4 rfl rfl (by norm_num)

/-- C3 (refuting evaluation): the token `TimeLimit` contains `Limit`, yet
normalization yields 11 (Unknown) rather than the canonical TimeLimit code
9: line 64 rewrites the token to `Time Limit`, which is not a key of
`status_map` (the relevant key is `Time`), so `.get` falls back to its
default 11.  On a full log carrying this token the parser stores 11. -/
theorem limit_token_goes_to_eleven :
    ("Limit".toList <:+: "TimeLimit".toList)
    ∧ normalizeCuoptStatus "TimeLimit" = 11
    ∧ (parse_cuopt_log "m" (.ok c3LogText)).status = some (.int 11) := by
  refine ⟨by decide, by decide, by decide⟩

/-- C6: for every record either producer returns, the error field is
populated exactly when the status field holds the ERROR marker. -/
theorem error_iff_status_error (name : String) (rr : Except String String)
    (run : GurobiOracle) :
    ((parse_cuopt_log name rr).error.isSome = true
      ↔ (parse_cuopt_log name rr).status = some .errMark)
    ∧ ((solve_mps_with_gurobi name run).error.isSome = true
      ↔ (solve_mps_with_gurobi name run).status = some .errMark) := by
  constructor
  · cases rr with
    | error e => simp [parse_cuopt_log, errorRecord]
    | ok content =>
      simp only [parse_cuopt_log]
      split
      · split <;> simp [errorRecord]
      · simp [errorRecord]
  · cases run with
    | ok rt stt ov => simp [solve_mps_with_gurobi]
    | exn pt ps msg => simp [solve_mps_with_gurobi]

/-- Witness for C6 at a concrete parse and a concrete failed Gurobi run. -/
theorem error_iff_status_error_witness :
    ((parse_cuopt_log "m6" (.error "boom")).error.isSome = true
      ↔ (parse_cuopt_log "m6" (.error "boom")).status = some .errMark)
    ∧ ((solve_mps_with_gurobi "m6" (.exn none none "crash")).error.isSome = true
      ↔ (solve_mps_with_gurobi "m6" (.exn none none "crash")).status = some .errMark) :=
  error_iff_status_error "m6" (.error "boom") (.exn none none "crash")

/-- C7: every rate statistic of `summary.py` lines 21-22 and
`compare_results.py` lines 45-47 degenerates on an empty dataset to the
IEEE non-numeric value: the counts over an empty dataset are 0 and numpy
evaluates `0/0` to `nan` with a `RuntimeWarning`, never raising a
`ZeroDivisionError`.  `nan` is the specification's Undefined marker — it is
not a number — and the computation is total. -/
theorem empty_denominator_rates_are_nan (cu gu : List Row)
    (h1 : cu.length = 0) (h2 : gu.length = 0) :
    success_rate cu = .nan ∧ success_rate gu = .nan
    ∧ status_pct (count_status_optimal cu) cu = .nan
    ∧ status_pct (count_status_error cu) cu = .nan
    ∧ status_pct (count_status_other cu) cu = .nan
    ∧ ∀ q : ℚ, ¬ NpVal.nan = NpVal.num q := by
  have hcu : cu = [] := List.length_eq_zero.mp h1
  have hgu : gu = [] := List.length_eq_zero.mp h2
  subst hcu; subst hgu
  refine ⟨by decide, by decide, by decide, by decide, by decide, ?_⟩
  intro q h
  cases h

/-- Witness for C7 at the empty datasets. -/
theorem empty_denominator_rates_are_nan_witness :
    success_rate [] = .nan :=
  (empty_denominator_rates_are_nan [] [] rfl rfl).1

/-- C5 (amended): a log missing either marker line is recovered locally as
the error record with `solve_time = None`, `objective = None` and the
code's literal message `No concurrent and status lines found in log`; an
I/O exception text, and a `ValueError` text from `float()`, are caught and
returned in the same error record shape with the exception text, so every
log yields a record and the batch never aborts. -/
theorem parse_error_recovery (name content e m : String) (g2 st obj : List Char) :
    ((searchConcurrent content.toList = none ∨ searchStatus content.toList = none) →
      parse_cuopt_log name (.ok content) = errorRecord name noMarkersMsg)
    ∧ parse_cuopt_log name (.error e) = errorRecord name e
    ∧ (searchConcurrent content.toList = some g2 →
       searchStatus content.toList = some (st, obj) →
       pyFloat (g2.filter fun c => decide (c ≠ ',')) = .error m →
       parse_cuopt_log name (.ok content) = errorRecord name m) := by
  refine ⟨?_, rfl, ?_⟩
  · intro h
    simp only [parse_cuopt_log]
    rcases hc : searchConcurrent content.toList with _ | g2'
    · rcases hs : searchStatus content.toList with _ | p
      · simp only [hc, hs]
      · obtain ⟨a, b⟩ := p
        simp only [hc, hs]
    · rcases hs : searchStatus content.toList with _ | p
      · simp only [hc, hs]
      · exfalso
        rcases h with h | h
        · rw [hc] at h; cases h
        · rw [hs] at h; cases h
  · intro h1 h2 h3
    simp only [parse_cuopt_log, h1, h2, h3]

/-- Witness for C5 at the empty log text. -/
theorem parse_error_recovery_witness :
    parse_cuopt_log "mw5" (.ok "") = errorRecord "mw5" noMarkersMsg :=
  (parse_error_recovery "mw5" "" "x" "y" [] [] []).1 (Or.inl (by decide))

/-- C5 (counterexample to the message literal of the claim): the
no-markers record carries the code's message, which differs from the
claim's literal `no timing/status markers found`. -/
theorem no_markers_message_differs :
    (parse_cuopt_log "m5" (.ok "x")).error
      = some "No concurrent and status lines found in log"
    ∧ ¬ (parse_cuopt_log "m5" (.ok "x")).error = some "no timing/status markers found" := by
  refine ⟨by decide, by decide⟩

/-- C10 (amended): when both regex searches succeed and the cleaned total
time string converts, the parsed record carries one of the five numeric
codes 2, 3, 5, 9, 11 (never the raw token), no error, and the nonnegative
converted solve time. -/
theorem parsed_success_record_shape (name content : String) (g2 st obj : List Char) (t : ℚ)
    (h1 : searchConcurrent content.toList = some g2)
    (h2 : searchStatus content.toList = some (st, obj))
    (h3 : pyFloat (g2.filter fun c => decide (c ≠ ',')) = .ok t) :
    ((parse_cuopt_log name (.ok content)).status = some (.int 2)
      ∨ (parse_cuopt_log name (.ok content)).status = some (.int 3)
      ∨ (parse_cuopt_log name (.ok content)).status = some (.int 5)
      ∨ (parse_cuopt_log name (.ok content)).status = some (.int 9)
      ∨ (parse_cuopt_log name (.ok content)).status = some (.int 11))
    ∧ (parse_cuopt_log name (.ok content)).error = none
    ∧ (parse_cuopt_log name (.ok content)).solve_time = some t
    ∧ 0 ≤ t := by
  have hrec : parse_cuopt_log name (.ok content) =
      { model_name := name
        solve_time := some t
        status := some (.int (normalizeCuoptStatus (String.mk st)))
        objective := some (.tok (String.mk obj))
        error := none } := by
    simp only [parse_cuopt_log, h1, h2, h3]
  rw [hrec]
  refine ⟨?_, rfl, rfl, pyFloat_ok_nonneg _ _ h3⟩
  rcases normalizeCuoptStatus_mem (String.mk st) with h | h | h | h | h <;> simp [h]

/-- Witness for C10 on the specification's example log. -/
theorem parsed_success_record_shape_witness :
    (parse_cuopt_log "mw" (.ok c10GoodLog)).error = none
    ∧ (parse_cuopt_log "mw" (.ok c10GoodLog)).solve_time = some (0.522 : ℚ)
    ∧ 0 ≤ (0.522 : ℚ) := by
  have ha : digitsToNat (("0.522".toList).takeWhile fun c => decide (c ≠ '.')) = 0 := by
    decide
  have hb : digitsToNat ((("0.522".toList).dropWhile fun c => decide (c ≠ '.')).drop 1)
      = 522 := by decide
  have hlen : ((("0.522".toList).dropWhile fun c => decide (c ≠ '.')).drop 1).length = 3 := by
    decide
  have hv : ratOfDecimal ("0.522".toList) = (0.522 : ℚ) := by
    simp only [ratOfDecimal, ha, hb, hlen]
    norm_num
  have h := parsed_success_record_shape "mw" c10GoodLog
      ("0.522".toList) ("Optimal".toList) ("2.87906569e+03".toList)
      (ratOfDecimal ("0.522".toList)) (by decide) (by decide) rfl
  rw [hv] at h
  exact ⟨h.2.1, h.2.2.1, h.2.2.2⟩

/-- C10 (counterexample to the claim as stated): both marker lines are
found, yet the captured total time `.s` makes `float('.')` raise, the
except clause fires, and the record is an ERROR record with an error
message rather than a numeric-status record without one. -/
theorem both_markers_found_but_error_record :
    (searchConcurrent c10BadLog.toList).isSome = true
    ∧ (searchStatus c10BadLog.toList).isSome = true
    ∧ (parse_cuopt_log "m" (.ok c10BadLog)).status = some .errMark
    ∧ (parse_cuopt_log "m" (.ok c10BadLog)).error.isSome = true := by
  refine ⟨by decide, by decide, by decide, by decide⟩

/-- C1 (amended): for any iteration order of the common-key set, the
reconciler emits exactly one comparison entry per problem in the
INTERSECTION of the two key sets — the output keys are exactly the visited
common keys, without duplicates, and the output length is the size of the
common set — and a problem present in only one dataset never appears: the
comparison loop of lines 149-166 of `compare_results.py` iterates over
`set(...) & set(...)`, an inner join, not a full outer join. -/
theorem reconciler_inner_join (cuopt gurobi : List Row) (enum : List String)
    (h : enum.Perm (common_models cuopt gurobi)) :
    (comparison_data cuopt gurobi enum).map ComparisonEntry.model_name = enum
    ∧ ((comparison_data cuopt gurobi enum).map ComparisonEntry.model_name).Nodup
    ∧ (comparison_data cuopt gurobi enum).length = (common_models cuopt gurobi).length
    ∧ ∀ m, m ∈ (comparison_data cuopt gurobi enum).map ComparisonEntry.model_name
        ↔ (m ∈ keysOf cuopt ∧ m ∈ keysOf gurobi) := by
  have hmem : ∀ m ∈ enum, m ∈ keysOf cuopt ∧ m ∈ keysOf gurobi := fun m hm =>
    (mem_common_models cuopt gurobi m).mp (h.mem_iff.mp hm)
  have hkeys := comparison_data_map_keys cuopt gurobi enum fun m hm =>
    ⟨lookupFirst_isSome_of_mem _ _ (hmem m hm).1,
     lookupFirst_isSome_of_mem _ _ (hmem m hm).2⟩
  have hnd : enum.Nodup := h.nodup_iff.mpr (common_models_nodup cuopt gurobi)
  refine ⟨hkeys, by rw [hkeys]; exact hnd, ?_, ?_⟩
  · have hlen := congrArg List.length hkeys
    rw [List.length_map] at hlen
    rw [hlen, h.length_eq]
  · intro m
    rw [hkeys]
    exact ⟨hmem m, fun hm => h.mem_iff.mpr ((mem_common_models cuopt gurobi m).mpr hm)⟩

/-- Witness for C1 on a two-problem-vs-one-problem pair whose common set
is the single key `b`. -/
theorem reconciler_inner_join_witness :
    (comparison_data [rwA, rwB] [rwBg] ["b"]).map ComparisonEntry.model_name = ["b"] := by
  have hc : common_models [rwA, rwB] [rwBg] = ["b"] := by decide
  have hp : (["b"] : List String).Perm (common_models [rwA, rwB] [rwBg]) := by
    rw [hc]
  exact (reconciler_inner_join [rwA, rwB] [rwBg] ["b"] hp).1

/-- C1 (counterexample to the claim as stated): with one problem per side
and no overlap, the common set is empty, the only iteration order is the
empty one and the output is empty — the union of the key sets has two
problems, yet neither solo problem appears in any reconciled record. -/
theorem solo_problems_dropped :
    common_models [rwA] [rwBg] = []
    ∧ comparison_data [rwA] [rwBg] [] = []
    ∧ "a" ∈ keysOf [rwA]
    ∧ (keysOf [rwA] ++ keysOf [rwBg]).dedup.length = 2
    ∧ (comparison_data [rwA] [rwBg] []).length = 0 := by
  refine ⟨by decide, rfl, by decide, by decide, rfl⟩

/-- C8 (amended): a duplicated `problem_id` resolves to the FIRST
occurrence in the dataset — the `.iloc[0]` lookup of lines 150-152 returns
the first matching row no matter what follows — and the looked-up record
is always one of the dataset's rows, never a merge of two of them. -/
theorem duplicate_key_first_wins (pre post : List Row) (r : Row) (m : String)
    (hr : r.model_name = m) (hpre : ∀ p ∈ pre, ¬ p.model_name = m) :
    lookupFirst (pre ++ r :: post) m = some r
    ∧ ∀ (df : List Row) (x : Row), lookupFirst df m = some x → x ∈ df := by
  constructor
  · induction pre with
    | nil => simp [lookupFirst, List.filter_cons, hr]
    | cons p ps ih =>
      have hp := hpre p (List.mem_cons_self p ps)
      simpa [lookupFirst, List.filter_cons, hp] using
        ih fun q hq => hpre q (List.mem_cons_of_mem _ hq)
  · intro df x hx
    unfold lookupFirst at hx
    refine List.mem_of_mem_filter (p := fun r0 => decide (r0.model_name = m)) ?_
    rcases hfe : df.filter fun r0 => decide (r0.model_name = m) with _ | ⟨y, ys⟩
    · rw [hfe] at hx; cases hx
    · rw [hfe] at hx
      injection hx with hx
      rw [hfe, ← hx]
      exact List.mem_cons_self y ys

/-- Witness for C8: the first of two rows keyed `a` is returned. -/
theorem duplicate_key_first_wins_witness :
    lookupFirst [rwAdup1, rwAdup2] "a" = some rwAdup1 :=
  (duplicate_key_first_wins [] [rwAdup2] rwAdup1 "a" rfl (by simp)).1

/-- C8 (counterexample to last-occurrence-wins): with two rows keyed `a`,
whose solve times are 1 and then 2, the reconciled entry carries the first
row's time 1, while the last occurrence holds 2. -/
theorem duplicate_key_last_does_not_win :
    (comparison_data [rwAdup1, rwAdup2] [rwAg] ["a"]).map ComparisonEntry.cuopt_solve_time
      = [some (1 : ℚ)]
    ∧ (([rwAdup1, rwAdup2].filter fun r => decide (r.model_name = "a")).getLast?).map
        Row.solve_time = some (some (2 : ℚ))
    ∧ ¬ (some (1 : ℚ) : Option ℚ) = some (2 : ℚ) := by
  refine ⟨by decide, by decide, by decide⟩

/-- C9 (amended): for a fixed pair of datasets the reconciled records are
determined only up to order — any two iteration orders of the common-key
set that are permutations of one another produce permuted record lists —
while the sequence order itself follows the Python set iteration order,
which the inputs alone do not determine. -/
theorem output_multiset_deterministic (cuopt gurobi : List Row) (e1 e2 : List String)
    (h : e1.Perm e2) :
    (comparison_data cuopt gurobi e1).Perm (comparison_data cuopt gurobi e2) :=
  h.filterMap _

/-- Witness for C9: the two orders of the two common keys give permuted
outputs. -/
theorem output_multiset_deterministic_witness :
    (comparison_data c9cu c9gu ["a", "b"]).Perm (comparison_data c9cu c9gu ["b", "a"]) :=
  output_multiset_deterministic c9cu c9gu ["a", "b"] ["b", "a"] (List.Perm.swap "b" "a" [])

/-- C9 (counterexample to cross-run order determinism): `a,b` and `b,a`
are both enumerations of the same two-element common set — each is a
permutation of it — yet they yield the reconciled records in different
orders, so the output sequence is not a function of the two datasets
alone. -/
theorem output_order_depends_on_set_order :
    common_models c9cu c9gu = ["a", "b"]
    ∧ (["b", "a"] : List String).Perm (common_models c9cu c9gu)
    ∧ ¬ comparison_data c9cu c9gu ["a", "b"] = comparison_data c9cu c9gu ["b", "a"] := by
  refine ⟨by decide, ?_, by decide⟩
  have hc : common_models c9cu c9gu = ["a", "b"] := by decide
  rw [hc]
  exact List.Perm.swap "a" "b" []
